import Mathlib

/-!
Shallow embedding of the AgroSmart irrigation dashboard core (app.py).

Conventions of the embedding:
* Python float values are modelled as exact rationals.  All timestamp
  arithmetic in the source is on epoch seconds, so an instant is a rational
  number of seconds since the Unix epoch.
* A Python value that may be absent is an Option.
* Store responses are modelled by small sum types distinguishing a null
  response, a truthy non-mapping response and a proper mapping, because the
  source treats these differently.
* Exceptions that escape to the caller are modelled with Except; functions
  wrapped in a try/except that returns None are total and return Option.
-/

/-- RawTimestamp values reaching ts_to_dt (app.py lines 48-62): Python None,
any dict (for example the server placeholder value), a string, a number, or
any other value whose conversion via float raises. -/
inductive RawTimestamp
  | null
  | dict
  | str (s : String)
  | num (v : ℚ)
  | other
deriving DecidableEq

/-- Value of a list of decimal digit characters, most significant first. -/
def digitsVal (l : List Char) : ℕ :=
  l.foldl (fun a c => a * 10 + (c.toNat - 48)) 0

/-- Mantissa part of a Python float literal: digits, optionally a dot and
further digits, with at least one digit present.  Returns the value and the
unconsumed characters. -/
def parseMantissa (cs : List Char) : Option (ℚ × List Char) :=
  let p := cs.span Char.isDigit
  match p.2 with
  | '.' :: r2 =>
      let q := r2.span Char.isDigit
      if p.1.isEmpty && q.1.isEmpty then Option.none
      else Option.some ((digitsVal p.1 : ℚ) + (digitsVal q.1 : ℚ) / (10 : ℚ) ^ q.1.length, q.2)
  | r1 => if p.1.isEmpty then Option.none else Option.some ((digitsVal p.1 : ℚ), r1)

/-- Optional exponent suffix of a Python float literal applied to a mantissa;
anything left over that is not a well-formed exponent makes the parse fail. -/
def parseExponent (m : ℚ) (cs : List Char) : Option ℚ :=
  match cs with
  | [] => Option.some m
  | e :: r =>
      if e = 'e' ∨ e = 'E' then
        let sr : ℤ × List Char :=
          match r with
          | '+' :: q => (1, q)
          | '-' :: q => (-1, q)
          | q => (1, q)
        let d := sr.2.span Char.isDigit
        if d.1.isEmpty ∨ ¬ d.2.isEmpty then Option.none
        else Option.some (m * (10 : ℚ) ^ (sr.1 * (digitsVal d.1 : ℤ)))
      else Option.none

/-- Model of the Python float conversion applied to a stripped string in
ts_to_dt: an optional sign, a decimal mantissa and an optional exponent.
Failure (non-numeric text) is Option.none; in the source the raised
ValueError is caught by the surrounding try/except.  Exotic accepted forms
(underscore separators, inf, nan) are outside the modelled grammar; the inf
and nan forms would fall to None in the source anyway since the subsequent
datetime conversion raises on them. -/
def parseDecimal (cs : List Char) : Option ℚ :=
  let sc : ℚ × List Char :=
    match cs with
    | '+' :: r => (1, r)
    | '-' :: r => (-1, r)
    | r => (1, r)
  match parseMantissa sc.2 with
  | Option.none => Option.none
  | Option.some mr =>
      match parseExponent mr.1 mr.2 with
      | Option.none => Option.none
      | Option.some v => Option.some (sc.1 * v)

/-- Model of the Python strip method applied in ts_to_dt: the characters of
the string with leading and trailing whitespace removed. -/
def stripped (s : String) : List Char :=
  ((s.toList.dropWhile Char.isWhitespace).reverse.dropWhile Char.isWhitespace).reverse

/-- Smallest epoch-seconds value accepted by datetime.fromtimestamp
(year 1). -/
def epochMin : ℚ := -62135596800

/-- Largest whole epoch-seconds value accepted by datetime.fromtimestamp
(year 9999); larger values raise and ts_to_dt returns None. -/
def epochMax : ℚ := 253402300799

/-- Numeric tail of ts_to_dt (app.py lines 58-60): a value above 10^12 is
taken to be milliseconds and divided by 1000, then the result is converted
with datetime.fromtimestamp, which succeeds exactly on the representable
range; out of range the raised exception is caught and None is returned.
The returned instant is the UTC epoch-seconds value; the astimezone call in
the source only changes the display zone, not the instant. -/
def toInstant (v : ℚ) : Option ℚ :=
  let w := if (10 : ℚ) ^ 12 < v then v / 1000 else v
  if epochMin ≤ w ∧ w ≤ epochMax then Option.some w else Option.none

/-- Translation of ts_to_dt (app.py lines 48-62).  None and dict inputs
return None; a string is trimmed, an empty result returns None, otherwise it
is parsed as a float; any other non-numeric value raises inside the try and
returns None; numeric values go through the magnitude heuristic and the
datetime range check. -/
def ts_to_dt : RawTimestamp → Option ℚ
  | RawTimestamp.null => Option.none
  | RawTimestamp.dict => Option.none
  | RawTimestamp.other => Option.none
  | RawTimestamp.str s =>
      if stripped s = [] then Option.none
      else
        match parseDecimal (stripped s) with
        | Option.none => Option.none
        | Option.some v => toInstant v
  | RawTimestamp.num v => toInstant v

/-- Zone snapshot mapping at /zones/<zone>, with each telemetry key either
absent (Option.none) or present with a numeric value.  Firebase never stores
nulls, so present-with-null does not arise. -/
structure Zone where
  soil_pct : Option ℚ
  soil_moisture_pct : Option ℚ
  humidity_pct : Option ℚ
  moisture_pct : Option ℚ
  temp_c : Option ℚ
  last_ts : RawTimestamp
deriving DecidableEq

/-- Model of d.get(k1, d.get(k2)): the primary key when present, else the
legacy fallback key. -/
def getWithFallback (primary fallback : Option ℚ) : Option ℚ :=
  match primary with
  | Option.some v => Option.some v
  | Option.none => fallback

/-- Soil percentage extraction (app.py line 228): soil_pct with
soil_moisture_pct as the legacy fallback key. -/
def zone_soil (z : Zone) : Option ℚ :=
  getWithFallback z.soil_pct z.soil_moisture_pct

/-- Humidity percentage extraction (app.py line 229): humidity_pct with
moisture_pct as the legacy fallback key. -/
def zone_humidity (z : Zone) : Option ℚ :=
  getWithFallback z.humidity_pct z.moisture_pct

/-- KPI moisture (app.py line 238): soil when not None, else humidity. -/
def moisture_for_kpi (z : Zone) : Option ℚ :=
  match zone_soil z with
  | Option.some v => Option.some v
  | Option.none => zone_humidity z

/-- Advisory moisture (app.py line 320): soil when not None, else humidity;
textually the same expression as the KPI moisture. -/
def moisture_now (z : Zone) : Option ℚ :=
  match zone_soil z with
  | Option.some v => Option.some v
  | Option.none => zone_humidity z

/-- Advisory outcome of app.py lines 321-324: the warning branch, the
success branch, or neither. -/
inductive Advisory
  | NEEDS_WATER
  | SUFFICIENT
  | NEUTRAL
deriving DecidableEq

/-- Translation of the advisory conditional (app.py lines 321-324): with the
thresholds always integers from get_thresholds, a None moisture takes
neither branch; otherwise moisture strictly below the start threshold warns,
else moisture at or above the stop threshold reports sufficiency, else
neither branch fires. -/
def irrigation_advisory (m : Option ℚ) (theta_start theta_stop : ℤ) : Advisory :=
  match m with
  | Option.none => Advisory.NEUTRAL
  | Option.some v =>
      if v < (theta_start : ℚ) then Advisory.NEEDS_WATER
      else if (theta_stop : ℚ) ≤ v then Advisory.SUFFICIENT
      else Advisory.NEUTRAL

/-- Persisted mapping at /meta/<zone>. -/
structure Meta where
  theta_start_pct : Option ℤ
  theta_stop_pct : Option ℤ
  updated_ts : Option ℤ
deriving DecidableEq

/-- Meta mapping with no persisted fields. -/
def emptyMeta : Meta := ⟨Option.none, Option.none, Option.none⟩

/-- Store response for the /meta/<zone> read: null, a truthy value that is
not a mapping, or a mapping. -/
inductive MetaResp
  | null
  | nonMapping
  | mapping (m : Meta)

/-- Translation of get_thresholds (app.py lines 100-104).  A null response
is replaced by an empty mapping and both thresholds fall back to their
defaults 30 and 45; a truthy non-mapping response makes the attribute lookup
of .get raise an AttributeError which is not caught anywhere; a mapping
yields each stored field or its default. -/
def get_thresholds : MetaResp → Except String (ℤ × ℤ)
  | MetaResp.null => Except.ok (30, 45)
  | MetaResp.nonMapping => Except.error "AttributeError"
  | MetaResp.mapping m =>
      Except.ok (m.theta_start_pct.getD 30, m.theta_stop_pct.getD 45)

/-- Translation of write_thresholds (app.py lines 107-112): a merge update
that sets the start threshold, the stop threshold and the update timestamp;
since these are all the fields of the meta mapping, the previous mapping is
wholly replaced. -/
def write_thresholds (_m : Meta) (start_pct stop_pct now_ms : ℤ) : Meta :=
  ⟨Option.some start_pct, Option.some stop_pct, Option.some now_ms⟩

/-- Translation of the save-thresholds handler (app.py lines 312-316): the
proposed pair is written only when start is strictly below stop, returning
the resulting store state and a flag that is true on the success message and
false on the validation error message. -/
def save_thresholds (m : Meta) (ns ne now_ms : ℤ) : Meta × Bool :=
  if ns < ne then (write_thresholds m ns ne now_ms, true) else (m, false)

/-- Status pill classification (app.py lines 116-129). -/
inductive Liveness
  | online
  | stale
  | offline
deriving DecidableEq

/-- Translation of the classification part of make_status_pill (app.py
lines 116-129); the html label the source also returns is display only.
A missing latest reading is offline; otherwise the age in seconds of the
reading against the current clock is classified by the two boundaries. -/
def make_status_pill (last_dt : Option ℚ) (heartbeat_s stale_s : ℚ) (now : ℚ) : Liveness :=
  match last_dt with
  | Option.none => Liveness.offline
  | Option.some t =>
      let age := now - t
      if age ≤ heartbeat_s then Liveness.online
      else if age ≤ stale_s then Liveness.stale
      else Liveness.offline

/-- Raw per-reading record under /logs/<zone>, as extracted by the row loop
of pull_logs (app.py lines 75-83): a ts field and the four telemetry keys,
each possibly absent. -/
structure LogRecord where
  ts : RawTimestamp
  soil_pct : Option ℚ
  soil_moisture_pct : Option ℚ
  humidity_pct : Option ℚ
  moisture_pct : Option ℚ
  temp_c : Option ℚ
deriving DecidableEq

/-- Value stored under one key of the /logs/<zone> mapping: either a proper
record mapping, or anything else, which the isinstance check of pull_logs
skips. -/
inductive LogValue
  | nonDict
  | record (r : LogRecord)
deriving DecidableEq

/-- Canonical reading of the built series: a resolved time plus the
telemetry fields after key fallback. -/
structure Reading where
  dt : ℚ
  soil_pct : Option ℚ
  humidity_pct : Option ℚ
  temp_c : Option ℚ
deriving DecidableEq

/-- Record mappings among the values of the /logs mapping, in iteration
order; non-mapping values are skipped by the isinstance check (app.py
line 76). -/
def logRecords (logs : List LogValue) : List LogRecord :=
  logs.filterMap fun v =>
    match v with
    | LogValue.nonDict => Option.none
    | LogValue.record r => Option.some r

/-- One row of the frame after the dt column is computed (app.py lines
77-83 and 86): the key-fallback telemetry fields together with the resolved
time, or Option.none when the time is unresolvable, in which case dropna
removes the row (line 87). -/
def toReading (r : LogRecord) : Option Reading :=
  (ts_to_dt r.ts).map fun d =>
    ⟨d, getWithFallback r.soil_pct r.soil_moisture_pct,
     getWithFallback r.humidity_pct r.moisture_pct, r.temp_c⟩

/-- Comparison used to sort rows by the dt column. -/
def readingLE (a b : Reading) : Bool :=
  decide (a.dt ≤ b.dt)

/-- Rows that survive the dropna on the dt column (app.py line 87). -/
def resolvedReadings (rows : List LogRecord) : List Reading :=
  rows.filterMap toReading

/-- Surviving rows sorted ascending by the dt column (app.py line 87). -/
def sortedReadings (rows : List LogRecord) : List Reading :=
  (resolvedReadings rows).mergeSort readingLE

/-- Store response for the /logs/<zone> read: null, a truthy non-mapping
value, or a mapping of keys to arbitrary values. -/
inductive LogsResp
  | null
  | nonMapping
  | mapping (logs : List LogValue)

/-- Translation of pull_logs (app.py lines 70-90).  A null response is
replaced by an empty mapping, so no rows are collected; a truthy non-mapping
response fails the isinstance check, so again no rows; otherwise each
mapping value becomes a row.  Rows with unresolvable time are dropped, the
rest are sorted ascending by time, and when more than limit rows remain only
the trailing limit rows are kept. -/
def pull_logs (resp : LogsResp) (limit : ℕ) : List Reading :=
  let rows :=
    match resp with
    | LogsResp.null => []
    | LogsResp.nonMapping => []
    | LogsResp.mapping logs => logRecords logs
  let df := sortedReadings rows
  if limit < df.length then df.drop (df.length - limit) else df

/-- Zone snapshot with no fields, the reading of a null /zones response. -/
def emptyZone : Zone :=
  ⟨Option.none, Option.none, Option.none, Option.none, Option.none, RawTimestamp.null⟩

/-- Store response for the /zones/<zone> read: null, a truthy value that is
not a mapping, or a mapping. -/
inductive ZoneResp
  | null
  | nonMapping
  | mapping (z : Zone)

/-- Translation of pull_zone (app.py lines 65-67) combined with the field
extraction applied to its result (app.py lines 228-233): a null response is
replaced by an empty mapping whose lookups all give None; a truthy
non-mapping response makes the attribute lookup of .get raise an
AttributeError which is not caught anywhere; a mapping is read as is. -/
def read_zone : ZoneResp → Except String Zone
  | ZoneResp.null => Except.ok emptyZone
  | ZoneResp.nonMapping => Except.error "AttributeError"
  | ZoneResp.mapping z => Except.ok z

/-- Seconds value in the realistic epoch range: large enough that its
millisecond form crosses the 10^12 magnitude cutoff, and inside the
representable datetime range (roughly the years 2001 to 9999). -/
def validSmallEpochSeconds (v : ℚ) : Prop :=
  (10 : ℚ) ^ 9 < v ∧ v ≤ epochMax

/-- KPI moisture at a snapshot with a soil probe reading of 40 and an air
humidity of 60. -/
def zoneSoil40Hum60 : Zone :=
  ⟨Option.some 40, Option.none, Option.some 60, Option.none, Option.none, RawTimestamp.null⟩

/-- Snapshot with no soil probe reading and an air humidity of 60. -/
def zoneHum60 : Zone :=
  ⟨Option.none, Option.none, Option.some 60, Option.none, Option.none, RawTimestamp.null⟩

/-- C1: the moisture value used for the KPI and the one used for the
advisory logic agree on every snapshot; it is the soil reading whenever that
is present, it falls back to the air humidity when the soil reading is
absent, and it is absent when both are absent. -/
theorem moisture_source_fallback :
    (∀ z : Zone, moisture_now z = moisture_for_kpi z) ∧
    (∀ (z : Zone) (v : ℚ), zone_soil z = Option.some v →
      moisture_for_kpi z = Option.some v) ∧
    (∀ z : Zone, zone_soil z = Option.none →
      moisture_for_kpi z = zone_humidity z) ∧
    (∀ z : Zone, zone_soil z = Option.none → zone_humidity z = Option.none →
      moisture_for_kpi z = Option.none) := by
  refine ⟨fun z => rfl, fun z v h => ?_, fun z h => ?_, fun z h h2 => ?_⟩
  · simp [moisture_for_kpi, h]
  · simp [moisture_for_kpi, h]
  · simp [moisture_for_kpi, h, h2]

/-- Witness for C1 on the two spec vectors: soil 40 with humidity 60 gives a
KPI moisture of 40, and absent soil with humidity 60 gives 60. -/
theorem moisture_source_fallback_witness :
    moisture_for_kpi zoneSoil40Hum60 = Option.some 40 ∧
    moisture_for_kpi zoneHum60 = Option.some 60 :=
  ⟨moisture_source_fallback.2.1 zoneSoil40Hum60 40 rfl,
   (moisture_source_fallback.2.2.1 zoneHum60 rfl).trans rfl⟩

/-- C2: with thresholds satisfying the maintained invariant that start is at
most stop, absent moisture is NEUTRAL, moisture strictly below the start
threshold is NEEDS_WATER, moisture at or above the stop threshold is
SUFFICIENT, and moisture in the dead band is NEUTRAL. -/
theorem advisory_tri_state (theta_start theta_stop : ℤ)
    (h : theta_start ≤ theta_stop) :
    irrigation_advisory Option.none theta_start theta_stop = Advisory.NEUTRAL ∧
    (∀ v : ℚ, v < (theta_start : ℚ) →
      irrigation_advisory (Option.some v) theta_start theta_stop = Advisory.NEEDS_WATER) ∧
    (∀ v : ℚ, (theta_stop : ℚ) ≤ v →
      irrigation_advisory (Option.some v) theta_start theta_stop = Advisory.SUFFICIENT) ∧
    (∀ v : ℚ, (theta_start : ℚ) ≤ v → v < (theta_stop : ℚ) →
      irrigation_advisory (Option.some v) theta_start theta_stop = Advisory.NEUTRAL) := by
  have hq : (theta_start : ℚ) ≤ (theta_stop : ℚ) := by exact_mod_cast h
  refine ⟨rfl, fun v hv => ?_, fun v hv => ?_, fun v h1 h2 => ?_⟩
  · simp [irrigation_advisory, hv]
  · have hns : ¬ v < (theta_start : ℚ) := not_lt.2 (le_trans hq hv)
    simp [irrigation_advisory, hns, hv]
  · simp [irrigation_advisory, not_lt.2 h1, not_le.2 h2]

/-- Witness for C2 on the default thresholds 30 and 45 at the five spec
vectors. -/
theorem advisory_tri_state_witness :
    (30 : ℤ) ≤ 45 ∧
    irrigation_advisory Option.none 30 45 = Advisory.NEUTRAL ∧
    irrigation_advisory (Option.some 29) 30 45 = Advisory.NEEDS_WATER ∧
    irrigation_advisory (Option.some 30) 30 45 = Advisory.NEUTRAL ∧
    irrigation_advisory (Option.some 44) 30 45 = Advisory.NEUTRAL ∧
    irrigation_advisory (Option.some 45) 30 45 = Advisory.SUFFICIENT :=
  ⟨by decide,
   (advisory_tri_state 30 45 (by decide)).1,
   (advisory_tri_state 30 45 (by decide)).2.1 29 (by norm_num),
   (advisory_tri_state 30 45 (by decide)).2.2.2 30 (by norm_num) (by norm_num),
   (advisory_tri_state 30 45 (by decide)).2.2.2 44 (by norm_num) (by norm_num),
   (advisory_tri_state 30 45 (by decide)).2.2.1 45 (by norm_num)⟩

/-- C3: a proposed threshold pair is persisted exactly when start is
strictly below stop, in which case the persisted pair reads back as
proposed; otherwise the handler reports the validation error and the
persisted mapping is returned unchanged. -/
theorem threshold_update_atomic (m : Meta) (ns ne now_ms : ℤ) :
    (ns < ne →
      save_thresholds m ns ne now_ms = (write_thresholds m ns ne now_ms, true) ∧
      get_thresholds (MetaResp.mapping (save_thresholds m ns ne now_ms).1) =
        Except.ok (ns, ne)) ∧
    (ne ≤ ns → save_thresholds m ns ne now_ms = (m, false)) := by
  constructor
  · intro h
    constructor
    · simp [save_thresholds, h]
    · simp [save_thresholds, h, write_thresholds, get_thresholds]
  · intro h
    simp [save_thresholds, not_lt.2 h]

/-- Witness for C3 on the two spec vectors: the pair 50, 40 is rejected and
the store is unchanged; the pair 20, 50 is accepted and reads back. -/
theorem threshold_update_atomic_witness :
    save_thresholds emptyMeta 50 40 0 = (emptyMeta, false) ∧
    get_thresholds (MetaResp.mapping (save_thresholds emptyMeta 20 50 0).1) =
      Except.ok (20, 50) :=
  ⟨(threshold_update_atomic emptyMeta 50 40 0).2 (by decide),
   ((threshold_update_atomic emptyMeta 20 50 0).1 (by decide)).2⟩

/-- C4: with no reading the status is offline for any boundaries; with the
default boundaries 45 and 240, an age of at most 45 is online, an age
strictly between 45 and 240 inclusive is stale, and an age above 240 is
offline, so each boundary value belongs to the better state. -/
theorem liveness_classification :
    (∀ heartbeat_s stale_s now : ℚ,
      make_status_pill Option.none heartbeat_s stale_s now = Liveness.offline) ∧
    (∀ t now : ℚ, now - t ≤ 45 →
      make_status_pill (Option.some t) 45 240 now = Liveness.online) ∧
    (∀ t now : ℚ, 45 < now - t → now - t ≤ 240 →
      make_status_pill (Option.some t) 45 240 now = Liveness.stale) ∧
    (∀ t now : ℚ, 240 < now - t →
      make_status_pill (Option.some t) 45 240 now = Liveness.offline) := by
  refine ⟨fun _ _ _ => rfl, fun t now h => ?_, fun t now h1 h2 => ?_,
    fun t now h => ?_⟩
  · simp [make_status_pill, h]
  · simp [make_status_pill, not_le.2 h1, h2]
  · have h45 : ¬ now - t ≤ 45 := not_le.2 (lt_trans (by norm_num) h)
    simp [make_status_pill, h45, not_le.2 h]

/-- Witness for C4 at the spec boundary ages 45, 46, 240 and 241, plus the
no-reading case. -/
theorem liveness_classification_witness :
    make_status_pill Option.none 45 240 0 = Liveness.offline ∧
    make_status_pill (Option.some 0) 45 240 45 = Liveness.online ∧
    make_status_pill (Option.some 0) 45 240 46 = Liveness.stale ∧
    make_status_pill (Option.some 0) 45 240 240 = Liveness.stale ∧
    make_status_pill (Option.some 0) 45 240 241 = Liveness.offline :=
  ⟨liveness_classification.1 45 240 0,
   liveness_classification.2.1 0 45 (by norm_num),
   liveness_classification.2.2.1 0 46 (by norm_num) (by norm_num),
   liveness_classification.2.2.1 0 240 (by norm_num) (by norm_num),
   liveness_classification.2.2.2 0 241 (by norm_num)⟩

/-- C10: a latest reading whose timestamp lies in the future of the current
clock has a negative age, hence an age at most the default heartbeat bound
of 45, and is classified online; no future timestamp can be stale or
offline. -/
theorem future_timestamp_online (t now : ℚ) (h : now < t) :
    now - t ≤ 45 ∧ make_status_pill (Option.some t) 45 240 now = Liveness.online := by
  have hage : now - t ≤ 45 := by linarith
  exact ⟨hage, liveness_classification.2.1 t now hage⟩

/-- Witness for C10: a reading stamped 10 seconds after a clock reading 0 is
classified online. -/
theorem future_timestamp_online_witness :
    (0 : ℚ) - 10 ≤ 45 ∧ make_status_pill (Option.some 10) 45 240 0 = Liveness.online :=
  future_timestamp_online 10 0 (by norm_num)

/-- C5: every failure shape of the normalizer input resolves to None rather
than an exception: a null, a dict placeholder, a value of unconvertible
type, a string that strips to empty, and a string whose stripped form fails
the float parse.  Totality is by construction: ts_to_dt returns an Option
and its source body is wholly inside a try/except returning None. -/
theorem normalize_never_raises :
    ts_to_dt RawTimestamp.null = Option.none ∧
    ts_to_dt RawTimestamp.dict = Option.none ∧
    ts_to_dt RawTimestamp.other = Option.none ∧
    (∀ s : String, stripped s = [] → ts_to_dt (RawTimestamp.str s) = Option.none) ∧
    (∀ s : String, parseDecimal (stripped s) = Option.none →
      ts_to_dt (RawTimestamp.str s) = Option.none) := by
  refine ⟨rfl, rfl, rfl, fun s h => ?_, fun s h => ?_⟩
  · simp [ts_to_dt, h]
  · by_cases he : stripped s = []
    · simp [ts_to_dt, he]
    · simp [ts_to_dt, he, h]

/-- Witness for C5 at a whitespace-only string and at non-numeric text. -/
theorem normalize_never_raises_witness :
    ts_to_dt (RawTimestamp.str "   ") = Option.none ∧
    ts_to_dt (RawTimestamp.str "twelve") = Option.none :=
  ⟨normalize_never_raises.2.2.2.1 "   " (by decide),
   normalize_never_raises.2.2.2.2 "twelve" (by decide)⟩

/-- Range bound carried by every resolved instant. -/
theorem toInstant_mem_range (v t : ℚ) (h : toInstant v = Option.some t) :
    epochMin ≤ t ∧ t ≤ epochMax := by
  have key : ∀ w : ℚ,
      (if epochMin ≤ w ∧ w ≤ epochMax then Option.some w else Option.none) =
        Option.some t →
      epochMin ≤ t ∧ t ≤ epochMax := by
    intro w hw
    split at hw
    · rename_i hr
      rw [Option.some.injEq] at hw
      subst hw
      exact hr
    · exact absurd hw (by simp)
  exact key _ h

/-- Range bound for every instant resolved from any raw input. -/
theorem ts_to_dt_mem_range (raw : RawTimestamp) (t : ℚ)
    (h : ts_to_dt raw = Option.some t) : epochMin ≤ t ∧ t ≤ epochMax := by
  cases raw with
  | null => exact absurd h (by simp [ts_to_dt])
  | dict => exact absurd h (by simp [ts_to_dt])
  | other => exact absurd h (by simp [ts_to_dt])
  | num v => exact toInstant_mem_range v t h
  | str s =>
      by_cases he : stripped s = []
      · simp [ts_to_dt, he] at h
      · simp only [ts_to_dt, he, if_false] at h
        cases hp : parseDecimal (stripped s) with
        | none => rw [hp] at h; exact absurd h (by simp)
        | some v => rw [hp] at h; exact toInstant_mem_range v t h

/-- C6: the magnitude heuristic of the normalizer.  A numeric value above
10^12 resolves exactly as its thousandth taken as seconds does (provided
that thousandth is itself on the seconds side of the cutoff); a value at or
below 10^12 inside the representable datetime range resolves to itself as
seconds; consequently every seconds value in the realistic epoch range
resolves to the same instant as its millisecond form. -/
theorem seconds_ms_disambiguation :
    (∀ v : ℚ, (10 : ℚ) ^ 12 < v → v / 1000 ≤ (10 : ℚ) ^ 12 →
      ts_to_dt (RawTimestamp.num v) = ts_to_dt (RawTimestamp.num (v / 1000))) ∧
    (∀ v : ℚ, v ≤ (10 : ℚ) ^ 12 → epochMin ≤ v → v ≤ epochMax →
      ts_to_dt (RawTimestamp.num v) = Option.some v) ∧
    (∀ v : ℚ, validSmallEpochSeconds v →
      ts_to_dt (RawTimestamp.num (v * 1000)) = Option.some v ∧
      ts_to_dt (RawTimestamp.num v) = Option.some v) := by
  have seconds_case : ∀ v : ℚ, v ≤ (10 : ℚ) ^ 12 → epochMin ≤ v → v ≤ epochMax →
      ts_to_dt (RawTimestamp.num v) = Option.some v := by
    intro v h1 h2 h3
    show toInstant v = Option.some v
    simp only [toInstant]
    rw [if_neg (not_lt.2 h1), if_pos ⟨h2, h3⟩]
  refine ⟨fun v h1 h2 => ?_, seconds_case, fun v hv => ?_⟩
  · show toInstant v = toInstant (v / 1000)
    simp only [toInstant]
    rw [if_pos h1, if_neg (not_lt.2 h2)]
  · obtain ⟨h1, h2⟩ := hv
    have hmin : epochMin ≤ v := by
      have h9 : (0 : ℚ) < (10 : ℚ) ^ 9 := by norm_num
      unfold epochMin
      linarith
    have hmax12 : epochMax ≤ (10 : ℚ) ^ 12 := by unfold epochMax; norm_num
    have hcut : (10 : ℚ) ^ 12 < v * 1000 := by
      have hm := mul_lt_mul_of_pos_right h1 (show (0 : ℚ) < 1000 by norm_num)
      have h9 : (10 : ℚ) ^ 9 * 1000 = (10 : ℚ) ^ 12 := by norm_num
      rw [h9] at hm
      exact hm
    have hdiv : v * 1000 / 1000 = v := by field_simp
    refine ⟨?_, seconds_case v (le_trans h2 hmax12) hmin h2⟩
    show toInstant (v * 1000) = Option.some v
    simp only [toInstant]
    rw [if_pos hcut, hdiv, if_pos ⟨hmin, h2⟩]

/-- Witness for C6 at the seconds value 1700000000 and its millisecond form:
both resolve to the instant 1700000000. -/
theorem seconds_ms_disambiguation_witness :
    validSmallEpochSeconds 1700000000 ∧
    ts_to_dt (RawTimestamp.num (1700000000 * 1000)) = Option.some 1700000000 ∧
    ts_to_dt (RawTimestamp.num 1700000000) = Option.some 1700000000 :=
  ⟨⟨by norm_num, by unfold epochMax; norm_num⟩,
   (seconds_ms_disambiguation.2.2 1700000000
     ⟨by norm_num, by unfold epochMax; norm_num⟩).1,
   (seconds_ms_disambiguation.2.2 1700000000
     ⟨by norm_num, by unfold epochMax; norm_num⟩).2⟩

/-- C9: normalization is idempotent; feeding an instant the normalizer
produced back through the normalizer returns exactly that instant, with no
drift.  The instant is within the representable datetime range, hence below
the millisecond cutoff, so the second pass takes the seconds branch and the
range check passes again. -/
theorem normalize_idempotent (raw : RawTimestamp) (t : ℚ)
    (h : ts_to_dt raw = Option.some t) :
    ts_to_dt (RawTimestamp.num t) = Option.some t := by
  obtain ⟨h1, h2⟩ := ts_to_dt_mem_range raw t h
  have hcut : ¬ (10 : ℚ) ^ 12 < t :=
    not_lt.2 (le_trans h2 (by unfold epochMax; norm_num))
  show toInstant t = Option.some t
  simp only [toInstant]
  rw [if_neg hcut, if_pos ⟨h1, h2⟩]

/-- Witness for C9: the instant resolved from the numeric input 1700000000
re-normalizes to itself. -/
theorem normalize_idempotent_witness :
    ts_to_dt (RawTimestamp.num 1700000000) = Option.some 1700000000 :=
  normalize_idempotent (RawTimestamp.num 1700000000) 1700000000 (by decide)

/-- Count split of the dropna step: the surviving rows and the dropped rows
together account for every record. -/
theorem resolved_plus_dropped (rows : List LogRecord) :
    (resolvedReadings rows).length +
      rows.countP (fun r => (ts_to_dt r.ts).isNone) = rows.length := by
  induction rows with
  | nil => rfl
  | cons r t ih =>
      cases h : ts_to_dt r.ts with
      | none =>
          simp [resolvedReadings, List.filterMap_cons, toReading, h,
            List.countP_cons] at ih ⊢
          omega
      | some d =>
          simp [resolvedReadings, List.filterMap_cons, toReading, h,
            List.countP_cons] at ih ⊢
          omega

/-- Sortedness of the sorted frame. -/
theorem sortedReadings_pairwise (rows : List LogRecord) :
    List.Pairwise (fun a b : Reading => a.dt ≤ b.dt) (sortedReadings rows) := by
  have ht : ∀ a b c : Reading, readingLE a b = true → readingLE b c = true →
      readingLE a c = true := by
    intro a b c hab hbc
    simp only [readingLE, decide_eq_true_eq] at hab hbc ⊢
    exact le_trans hab hbc
  have htot : ∀ a b : Reading, (readingLE a b || readingLE b a) = true := by
    intro a b
    simp only [readingLE, Bool.or_eq_true, decide_eq_true_eq]
    exact le_total a.dt b.dt
  exact (List.sorted_mergeSort ht htot (resolvedReadings rows)).imp
    (fun h => by simpa [readingLE] using h)

/-- C7: from any raw log mapping the built series keeps exactly the records
with resolvable time, capped at the retention limit; dropped and kept
records account for every record; under the cap the series is exactly the
resolvable readings; the series is always sorted non-decreasing by time and
is a suffix of the full sorted series, so over the cap the most recent
readings are the ones kept, still ascending. -/
theorem series_construction (logs : List LogValue) (limit : ℕ) :
    (pull_logs (LogsResp.mapping logs) limit).length =
      min (resolvedReadings (logRecords logs)).length limit ∧
    (resolvedReadings (logRecords logs)).length +
      (logRecords logs).countP (fun r => (ts_to_dt r.ts).isNone) =
      (logRecords logs).length ∧
    ((resolvedReadings (logRecords logs)).length ≤ limit →
      (pull_logs (LogsResp.mapping logs) limit).Perm
        (resolvedReadings (logRecords logs))) ∧
    List.Pairwise (fun a b : Reading => a.dt ≤ b.dt)
      (pull_logs (LogsResp.mapping logs) limit) ∧
    pull_logs (LogsResp.mapping logs) limit <:+ sortedReadings (logRecords logs) := by
  have hpull : pull_logs (LogsResp.mapping logs) limit =
      if limit < (sortedReadings (logRecords logs)).length then
        (sortedReadings (logRecords logs)).drop
          ((sortedReadings (logRecords logs)).length - limit)
      else sortedReadings (logRecords logs) := rfl
  have hslen : (sortedReadings (logRecords logs)).length =
      (resolvedReadings (logRecords logs)).length := by
    simp [sortedReadings, List.length_mergeSort]
  refine ⟨?_, resolved_plus_dropped (logRecords logs), fun hle => ?_, ?_, ?_⟩
  · rw [hpull]
    split
    · rename_i hc
      rw [List.length_drop]
      omega
    · rename_i hc
      rw [hslen]
      omega
  · have hc : ¬ limit < (sortedReadings (logRecords logs)).length := by omega
    rw [hpull, if_neg hc]
    exact List.mergeSort_perm (resolvedReadings (logRecords logs)) readingLE
  · rw [hpull]
    split
    · exact List.Pairwise.sublist ((List.drop_suffix _ _).sublist)
        (sortedReadings_pairwise (logRecords logs))
    · exact sortedReadings_pairwise (logRecords logs)
  · rw [hpull]
    split
    · exact List.drop_suffix _ _
    · exact List.suffix_refl _

/-- Log mapping with four values: two records with resolvable times given
out of order, one record with an unresolvable null time, and one non-mapping
value. -/
def demoLogs : List LogValue :=
  [LogValue.record ⟨RawTimestamp.num 1700000100, Option.some 42, Option.none,
     Option.some 55, Option.none, Option.some 25⟩,
   LogValue.nonDict,
   LogValue.record ⟨RawTimestamp.null, Option.some 41, Option.none,
     Option.none, Option.none, Option.none⟩,
   LogValue.record ⟨RawTimestamp.num 1700000000, Option.none, Option.some 40,
     Option.none, Option.some 50, Option.none⟩]

/-- Witness for C7: the demo log mapping has two resolvable records, within
the limit of 300, and the built series is exactly those readings. -/
theorem series_construction_witness :
    (resolvedReadings (logRecords demoLogs)).length ≤ 300 ∧
    (pull_logs (LogsResp.mapping demoLogs) 300).Perm
      (resolvedReadings (logRecords demoLogs)) :=
  ⟨by decide, (series_construction demoLogs 300).2.2.1 (by decide)⟩

/-- Counterexample to C8 as stated: a store read that returns a truthy
non-mapping value at the meta path or the zone path does not yield the
no-data result; the attribute lookup of .get on the non-mapping value raises
an AttributeError that no handler catches, so a fatal error does propagate.
Only the logs read guards its response with an isinstance check. -/
theorem store_malformed_fatal :
    get_thresholds MetaResp.nonMapping = Except.error "AttributeError" ∧
    read_zone ZoneResp.nonMapping = Except.error "AttributeError" :=
  ⟨rfl, rfl⟩

/-- C8 amended: a store read that returns null yields the no-data result on
every path (empty zone mapping, empty series, default thresholds 30 and 45),
an empty mapping yields an empty series and the default thresholds, and the
logs read additionally tolerates a non-mapping response by producing an
empty series; but a truthy non-mapping response to the zone or meta read
raises instead of degrading to no data. -/
theorem store_missing_benign :
    read_zone ZoneResp.null = Except.ok emptyZone ∧
    (∀ limit : ℕ, pull_logs LogsResp.null limit = []) ∧
    (∀ limit : ℕ, pull_logs LogsResp.nonMapping limit = []) ∧
    (∀ limit : ℕ, pull_logs (LogsResp.mapping []) limit = []) ∧
    get_thresholds MetaResp.null = Except.ok (30, 45) ∧
    get_thresholds (MetaResp.mapping emptyMeta) = Except.ok (30, 45) := by
  refine ⟨rfl, fun limit => ?_, fun limit => ?_, fun limit => ?_, rfl, rfl⟩ <;>
    simp [pull_logs, sortedReadings, resolvedReadings, logRecords,
      List.mergeSort_nil]
